import Mathlib

/-!
Verification of the geofence evaluator and attendance state machine of the
doctor attendance system (sistem-absensi-dokter).

The geofence evaluator lives in src/server/utils/geofence.js
(calculateDistance, isWithinGeofence, validateCoordinates); the attendance
state machine is the request logic of POST /doctor/checkin and
POST /doctor/checkout in the doctor routes, together with
DELETE /admin/delete-attendance/:attendanceId in src/server/routes/admin.js.

Coordinates and distances are embedded as real numbers; the MySQL attendance
table is embedded as a list of records; each HTTP handler becomes a function
from a store to a response paired with the new store.
-/

open Real Classical

/-- Embedding of the JavaScript Math.atan2 function on real arguments.
The quadrant case split follows the usual atan2 specification; signed
zeroes and NaN are not representable in the real-number embedding. -/
noncomputable def atan2 (y x : ℝ) : ℝ :=
  if 0 < x then arctan (y / x)
  else if x < 0 ∧ 0 ≤ y then arctan (y / x) + π
  else if x < 0 ∧ y < 0 then arctan (y / x) - π
  else if x = 0 ∧ 0 < y then π / 2
  else if x = 0 ∧ y < 0 then -(π / 2)
  else 0

/-- Embedding of calculateDistance from src/server/utils/geofence.js:
haversine great-circle distance in meters on a sphere of radius 6371000. -/
noncomputable def calculateDistance (lat1 lon1 lat2 lon2 : ℝ) : ℝ :=
  let R : ℝ := 6371000
  let phi1 := lat1 * π / 180
  let phi2 := lat2 * π / 180
  let dphi := (lat2 - lat1) * π / 180
  let dlam := (lon2 - lon1) * π / 180
  let a := Real.sin (dphi / 2) * Real.sin (dphi / 2) +
    Real.cos phi1 * Real.cos phi2 * Real.sin (dlam / 2) * Real.sin (dlam / 2)
  let c := 2 * atan2 (Real.sqrt a) (Real.sqrt (1 - a))
  R * c

/-- Spec-side reference definition (spec section 4.1, computeDistanceMeters):
the haversine reference equations transcribed from the specification text,
on coordinate pairs. Used only to compare against calculateDistance. -/
noncomputable def computeDistanceMeters (a b : ℝ × ℝ) : ℝ :=
  let R : ℝ := 6371000
  let phi1 := a.1 * π / 180
  let phi2 := b.1 * π / 180
  let dphi := (b.1 - a.1) * π / 180
  let dlam := (b.2 - a.2) * π / 180
  let h := Real.sin (dphi / 2) * Real.sin (dphi / 2) +
    Real.cos phi1 * Real.cos phi2 * Real.sin (dlam / 2) * Real.sin (dlam / 2)
  let c := 2 * atan2 (Real.sqrt h) (Real.sqrt (1 - h))
  R * c

/-- The result object built by isWithinGeofence. The isWithin field is the
truth of the comparison distance <= radius performed by the code. -/
structure GeofenceResult where
  isWithin : Prop
  distance : ℤ
  maxDistance : ℤ
  authorizedLocation : ℝ × ℝ

/-- Embedding of isWithinGeofence from src/server/utils/geofence.js.
The configuration read from the environment (AUTHORIZED_LAT, AUTHORIZED_LNG,
GEOFENCE_RADIUS, with defaults -6.2, 106.816666 and 500) is passed as the
first three arguments. The input guard mirrors the JavaScript test
(!userLat || !userLng || out of range): in JavaScript a coordinate equal to
0 is falsy, so the guard also fires on latitude 0 or longitude 0. A thrown
error is modelled as the Except.error case. -/
noncomputable def isWithinGeofence (authorizedLat authorizedLng : ℝ)
    (radius : ℤ) (userLat userLng : ℝ) : Except String GeofenceResult :=
  if userLat = 0 ∨ userLng = 0 ∨
      userLat < -90 ∨ 90 < userLat ∨ userLng < -180 ∨ 180 < userLng then
    Except.error "Invalid coordinates provided"
  else
    Except.ok
      { isWithin := calculateDistance authorizedLat authorizedLng userLat userLng ≤ (radius : ℝ)
        distance := round (calculateDistance authorizedLat authorizedLng userLat userLng)
        maxDistance := radius
        authorizedLocation := (authorizedLat, authorizedLng) }

/-- The outcome of applying parseFloat to a raw request value: a finite
number x, positive infinity (for example the strings Infinity or 1e999),
negative infinity, or NaN (for example the string abc, or a missing
field). -/
inductive RawCoord where
  | finite (x : ℝ)
  | posInf
  | negInf
  | nan

/-- The JavaScript comparison a < b on parseFloat results: ordinary real
comparison between finite values, negative infinity below every finite
value and positive infinity, positive infinity above every finite value,
and every comparison involving NaN false. -/
def RawCoord.jsLt : RawCoord → RawCoord → Prop
  | RawCoord.finite a, RawCoord.finite b => a < b
  | RawCoord.finite _, RawCoord.posInf => True
  | RawCoord.negInf, RawCoord.finite _ => True
  | RawCoord.negInf, RawCoord.posInf => True
  | _, _ => False

/-- The real number carried by a finite parse result. The fallback 0 for
the non-finite constructors is unreachable from validateCoordinates: NaN
fails its format check and infinite values fail its range checks. -/
def RawCoord.toReal : RawCoord → ℝ
  | RawCoord.finite x => x
  | _ => 0

/-- The object returned by validateCoordinates: either a failure message or
the parsed coordinate pair. -/
inductive ValidationResult where
  | invalid (message : String)
  | valid (lat lng : ℝ)

/-- Embedding of validateCoordinates from src/server/utils/geofence.js:
parse both inputs, fail when either is NaN (the isNaN test of the code,
which infinite values pass), then compare the parsed values against the
degree bounds with JavaScript comparison semantics, so an infinite
latitude or longitude is rejected by the corresponding range check. -/
noncomputable def validateCoordinates (lat lng : RawCoord) : ValidationResult :=
  if lat = RawCoord.nan ∨ lng = RawCoord.nan then
    ValidationResult.invalid "Coordinates must be valid numbers"
  else if RawCoord.jsLt lat (RawCoord.finite (-90)) ∨
      RawCoord.jsLt (RawCoord.finite 90) lat then
    ValidationResult.invalid "Latitude must be between -90 and 90"
  else if RawCoord.jsLt lng (RawCoord.finite (-180)) ∨
      RawCoord.jsLt (RawCoord.finite 180) lng then
    ValidationResult.invalid "Longitude must be between -180 and 180"
  else
    ValidationResult.valid lat.toReal lng.toReal

/-- Spec-side error taxonomy for coordinate validation (spec sections 4.1
and 7): InvalidFormat, LatitudeOutOfRange, LongitudeOutOfRange, or success. -/
inductive CoordOutcome where
  | invalidFormat
  | latitudeOutOfRange
  | longitudeOutOfRange
  | ok (lat lng : ℝ)

/-- Spec-side reference definition of validateCoordinates, transcribed from
the specification text: parse both inputs, fail with InvalidFormat when
either does not parse to a finite number, then check the latitude range,
then the longitude range, and otherwise return the parsed pair. -/
noncomputable def validateCoordinatesSpec (lat lng : RawCoord) : CoordOutcome :=
  match lat, lng with
  | RawCoord.finite latitude, RawCoord.finite longitude =>
    if latitude < -90 ∨ 90 < latitude then CoordOutcome.latitudeOutOfRange
    else if longitude < -180 ∨ 180 < longitude then CoordOutcome.longitudeOutOfRange
    else CoordOutcome.ok latitude longitude
  | _, _ => CoordOutcome.invalidFormat

lemma calculateDistance_self (lat lng : ℝ) : calculateDistance lat lng lat lng = 0 := by
  simp [calculateDistance, atan2]

lemma calculateDistance_comm (lat1 lon1 lat2 lon2 : ℝ) :
    calculateDistance lat1 lon1 lat2 lon2 = calculateDistance lat2 lon2 lat1 lon1 := by
  simp only [calculateDistance]
  have h1 : (lat1 - lat2) * π / 180 / 2 = -((lat2 - lat1) * π / 180 / 2) := by ring
  have h2 : (lon1 - lon2) * π / 180 / 2 = -((lon2 - lon1) * π / 180 / 2) := by ring
  have hA :
      Real.sin ((lat1 - lat2) * π / 180 / 2) * Real.sin ((lat1 - lat2) * π / 180 / 2) +
        Real.cos (lat2 * π / 180) * Real.cos (lat1 * π / 180) *
          Real.sin ((lon1 - lon2) * π / 180 / 2) * Real.sin ((lon1 - lon2) * π / 180 / 2) =
      Real.sin ((lat2 - lat1) * π / 180 / 2) * Real.sin ((lat2 - lat1) * π / 180 / 2) +
        Real.cos (lat1 * π / 180) * Real.cos (lat2 * π / 180) *
          Real.sin ((lon2 - lon1) * π / 180 / 2) * Real.sin ((lon2 - lon1) * π / 180 / 2) := by
    rw [h1, h2, Real.sin_neg, Real.sin_neg]
    ring
  rw [hA]

/-- The attendance record type column: ENUM(checkin, checkout). -/
inductive RecType where
  | checkin
  | checkout
deriving DecidableEq

/-- A DATETIME value, split into its calendar date (day) and the time of
day, so that the SQL DATE(timestamp) projection is the day field. The
calendar date is abstracted to a natural number. -/
structure Timestamp where
  day : ℕ
  timeOfDay : ℕ
deriving DecidableEq

/-- A row of the attendance table (src/database.sql): id, user_id, type,
timestamp, photo_path, location_lat, location_lng. -/
structure AttendanceRecord where
  id : ℕ
  userId : String
  type : RecType
  timestamp : Timestamp
  photoPath : String
  locationLat : ℝ
  locationLng : ℝ

/-- The body of a check-in or check-out request: the latitude and longitude
fields of req.body and the optional uploaded photo (req.file). The request
carries no timestamp field; timestamps are assigned by the server. -/
structure CheckRequest where
  latitude : RawCoord
  longitude : RawCoord
  photo : Option String

/-- The response of a check-in or check-out handler, by HTTP status:
400 badRequest, 403 forbidden (outside the geofence, carrying the
GeofenceResult), 409 conflict, 500 serverError, or 200 ok carrying the
inserted record. -/
inductive ApiResult where
  | badRequest (message : String)
  | forbidden (message : String) (geofence : GeofenceResult)
  | conflict (message : String)
  | serverError
  | ok (record : AttendanceRecord)

/-- Whether a record of the given user, type and calendar date is present:
the predicate of the SQL query
SELECT id FROM attendance WHERE user_id = ? AND type = ? AND DATE(timestamp) = ?. -/
def recMatches (u : String) (t : RecType) (d : ℕ) (r : AttendanceRecord) : Bool :=
  decide (r.userId = u ∧ r.type = t ∧ r.timestamp.day = d)

/-- The SQL existence check: the SELECT above returns at least one row. -/
def hasRecord (store : List AttendanceRecord) (u : String) (t : RecType) (d : ℕ) : Bool :=
  store.any (recMatches u t d)

/-- AUTO_INCREMENT id assignment: one more than the largest id in the store. -/
def nextId (store : List AttendanceRecord) : ℕ :=
  (store.map (fun r => r.id)).foldr max 0 + 1

/-- The row inserted by a successful check-in or check-out:
INSERT INTO attendance (user_id, type, timestamp, photo_path, location_lat, location_lng). -/
def mkRecord (store : List AttendanceRecord) (u : String) (t : RecType)
    (now : Timestamp) (filename : String) (lat lng : ℝ) : AttendanceRecord :=
  { id := nextId store
    userId := u
    type := t
    timestamp := now
    photoPath := "uploads/attendance/" ++ filename
    locationLat := lat
    locationLng := lng }

/-- Embedding of POST /doctor/checkin (doctor routes): validate the
coordinates, require the photo, check the geofence (a thrown geofence error
is caught by the surrounding try and answered with 500), reject when a
checkin row already exists for (userId, today), and otherwise insert a
checkin row with the server-assigned timestamp now. Returns the response
and the new store. -/
noncomputable def postCheckin (authorizedLat authorizedLng : ℝ) (radius : ℤ)
    (now : Timestamp) (userId : String) (req : CheckRequest)
    (store : List AttendanceRecord) : ApiResult × List AttendanceRecord :=
  match validateCoordinates req.latitude req.longitude with
  | ValidationResult.invalid msg => (ApiResult.badRequest msg, store)
  | ValidationResult.valid lat lng =>
    match req.photo with
    | none => (ApiResult.badRequest "Photo is required for check-in", store)
    | some filename =>
      match isWithinGeofence authorizedLat authorizedLng radius lat lng with
      | Except.error _ => (ApiResult.serverError, store)
      | Except.ok geofenceResult =>
        if geofenceResult.isWithin then
          if hasRecord store userId RecType.checkin now.day then
            (ApiResult.conflict "You have already checked in today", store)
          else
            let record := mkRecord store userId RecType.checkin now filename lat lng
            (ApiResult.ok record, store ++ [record])
        else
          (ApiResult.forbidden
            ("You are outside the authorized location. You are " ++
              toString geofenceResult.distance ++ "m away (maximum allowed: " ++
              toString geofenceResult.maxDistance ++ "m)") geofenceResult, store)

/-- Embedding of POST /doctor/checkout (doctor routes): validate the
coordinates, require the photo, check the geofence, reject with 400 when no
checkin row exists for (userId, today), reject with 409 when a checkout row
already exists, and otherwise insert a checkout row with the server-assigned
timestamp now. -/
noncomputable def postCheckout (authorizedLat authorizedLng : ℝ) (radius : ℤ)
    (now : Timestamp) (userId : String) (req : CheckRequest)
    (store : List AttendanceRecord) : ApiResult × List AttendanceRecord :=
  match validateCoordinates req.latitude req.longitude with
  | ValidationResult.invalid msg => (ApiResult.badRequest msg, store)
  | ValidationResult.valid lat lng =>
    match req.photo with
    | none => (ApiResult.badRequest "Photo is required for check-out", store)
    | some filename =>
      match isWithinGeofence authorizedLat authorizedLng radius lat lng with
      | Except.error _ => (ApiResult.serverError, store)
      | Except.ok geofenceResult =>
        if geofenceResult.isWithin then
          if hasRecord store userId RecType.checkin now.day = false then
            (ApiResult.badRequest "You must check in before checking out", store)
          else if hasRecord store userId RecType.checkout now.day then
            (ApiResult.conflict "You have already checked out today", store)
          else
            let record := mkRecord store userId RecType.checkout now filename lat lng
            (ApiResult.ok record, store ++ [record])
        else
          (ApiResult.forbidden
            ("You are outside the authorized location. You are " ++
              toString geofenceResult.distance ++ "m away (maximum allowed: " ++
              toString geofenceResult.maxDistance ++ "m)") geofenceResult, store)

/-- The response of DELETE /admin/delete-attendance/:attendanceId. -/
inductive DeleteResult where
  | notFound (message : String)
  | deleted (message : String)

/-- Embedding of DELETE /admin/delete-attendance/:attendanceId from
src/server/routes/admin.js: 404 when no row has the given id, otherwise
DELETE FROM attendance WHERE id = ?. -/
def deleteAttendance (attendanceId : ℕ)
    (store : List AttendanceRecord) : DeleteResult × List AttendanceRecord :=
  let existingRecord := store.filter (fun r => r.id == attendanceId)
  if existingRecord.length = 0 then
    (DeleteResult.notFound "Attendance record not found", store)
  else
    (DeleteResult.deleted "Attendance record deleted successfully",
      store.filter (fun r => !(r.id == attendanceId)))

/-- One operation of the system considered by the invariant claim: a
check-in request, a check-out request, or an administrative deletion. -/
inductive Op where
  | checkin (now : Timestamp) (userId : String) (req : CheckRequest)
  | checkout (now : Timestamp) (userId : String) (req : CheckRequest)
  | deleteAtt (attendanceId : ℕ)

/-- Whether an operation is an administrative deletion. -/
def Op.isDelete : Op → Bool
  | Op.deleteAtt _ => true
  | _ => false

/-- The store after one operation, discarding the response. -/
noncomputable def applyOp (authorizedLat authorizedLng : ℝ) (radius : ℤ)
    (store : List AttendanceRecord) : Op → List AttendanceRecord
  | Op.checkin now userId req =>
    (postCheckin authorizedLat authorizedLng radius now userId req store).2
  | Op.checkout now userId req =>
    (postCheckout authorizedLat authorizedLng radius now userId req store).2
  | Op.deleteAtt attendanceId => (deleteAttendance attendanceId store).2

/-- The store reached by running a sequence of operations from the empty
record set. -/
noncomputable def runOps (authorizedLat authorizedLng : ℝ) (radius : ℤ)
    (ops : List Op) : List AttendanceRecord :=
  ops.foldl (applyOp authorizedLat authorizedLng radius) []

/-- The per-day uniqueness half of the stored-record invariant: for any
user and calendar date, at most one checkin row and at most one checkout
row. -/
def uniquenessInvariant (store : List AttendanceRecord) : Prop :=
  ∀ u d, store.countP (recMatches u RecType.checkin d) ≤ 1 ∧
    store.countP (recMatches u RecType.checkout d) ≤ 1

/-- The full stored-record invariant of spec section 3: per-day uniqueness
of each record type, and a checkout row exists only when a checkin row for
the same user and date exists. -/
def dailyInvariant (store : List AttendanceRecord) : Prop :=
  ∀ u d, store.countP (recMatches u RecType.checkin d) ≤ 1 ∧
    store.countP (recMatches u RecType.checkout d) ≤ 1 ∧
    (hasRecord store u RecType.checkout d = true →
      hasRecord store u RecType.checkin d = true)

lemma hasRecord_append (s : List AttendanceRecord) (r : AttendanceRecord)
    (u : String) (t : RecType) (d : ℕ) :
    hasRecord (s ++ [r]) u t d = (hasRecord s u t d || recMatches u t d r) := by
  simp [hasRecord, List.any_append]

lemma countP_eq_zero_of_hasRecord_false {s : List AttendanceRecord}
    {u : String} {t : RecType} {d : ℕ} (h : hasRecord s u t d = false) :
    s.countP (recMatches u t d) = 0 := by
  rw [List.countP_eq_zero]
  intro a ha
  simp only [hasRecord, List.any_eq_false] at h
  simp [h a ha]

lemma hasRecord_false_iff {s : List AttendanceRecord} {u : String}
    {t : RecType} {d : ℕ} :
    hasRecord s u t d = false ↔ ∀ a ∈ s, recMatches u t d a = false := by
  simp [hasRecord, List.any_eq_false]

lemma recMatches_mkRecord (store : List AttendanceRecord) (u u2 : String)
    (t t2 : RecType) (now : Timestamp) (d : ℕ) (f : String) (lat lng : ℝ) :
    recMatches u2 t2 d (mkRecord store u t now f lat lng) =
      decide (u = u2 ∧ t = t2 ∧ now.day = d) := by
  simp [recMatches, mkRecord]

lemma postCheckin_snd (authorizedLat authorizedLng : ℝ) (radius : ℤ)
    (now : Timestamp) (u : String) (req : CheckRequest)
    (store : List AttendanceRecord) :
    (postCheckin authorizedLat authorizedLng radius now u req store).2 = store ∨
    ∃ lat lng f, hasRecord store u RecType.checkin now.day = false ∧
      (postCheckin authorizedLat authorizedLng radius now u req store).2 =
        store ++ [mkRecord store u RecType.checkin now f lat lng] := by
  unfold postCheckin
  split
  · exact Or.inl rfl
  · split
    · exact Or.inl rfl
    · split
      · exact Or.inl rfl
      · split
        · split
          · exact Or.inl rfl
          · next hguard =>
              exact Or.inr ⟨_, _, _, by simpa using hguard, rfl⟩
        · exact Or.inl rfl

lemma postCheckout_snd (authorizedLat authorizedLng : ℝ) (radius : ℤ)
    (now : Timestamp) (u : String) (req : CheckRequest)
    (store : List AttendanceRecord) :
    (postCheckout authorizedLat authorizedLng radius now u req store).2 = store ∨
    ∃ lat lng f, hasRecord store u RecType.checkin now.day = true ∧
      hasRecord store u RecType.checkout now.day = false ∧
      (postCheckout authorizedLat authorizedLng radius now u req store).2 =
        store ++ [mkRecord store u RecType.checkout now f lat lng] := by
  unfold postCheckout
  split
  · exact Or.inl rfl
  · split
    · exact Or.inl rfl
    · split
      · exact Or.inl rfl
      · split
        · split
          · exact Or.inl rfl
          · split
            · exact Or.inl rfl
            · next hin hout =>
                exact Or.inr ⟨_, _, _, by simpa using hin, by simpa using hout, rfl⟩
        · exact Or.inl rfl

lemma deleteAttendance_snd (attendanceId : ℕ) (store : List AttendanceRecord) :
    List.Sublist (deleteAttendance attendanceId store).2 store := by
  simp only [deleteAttendance]
  split
  · exact List.Sublist.refl store
  · exact List.filter_sublist store

lemma countP_le_one_append (p : AttendanceRecord → Bool) (s : List AttendanceRecord)
    (r : AttendanceRecord) (h1 : s.countP p ≤ 1) (h0 : p r = true → s.countP p = 0) :
    (s ++ [r]).countP p ≤ 1 := by
  rw [List.countP_append]
  cases hpr : p r
  · simp [List.countP_cons, hpr]
    omega
  · have := h0 hpr
    simp [List.countP_cons, hpr, this]

lemma countP_append_mkRecord_le_one (s : List AttendanceRecord) (u : String)
    (t : RecType) (now : Timestamp) (f : String) (lat lng : ℝ)
    (u2 : String) (t2 : RecType) (d : ℕ)
    (hle : s.countP (recMatches u2 t2 d) ≤ 1)
    (hguard : hasRecord s u t now.day = false) :
    (s ++ [mkRecord s u t now f lat lng]).countP (recMatches u2 t2 d) ≤ 1 := by
  apply countP_le_one_append _ _ _ hle
  intro hm
  rw [recMatches_mkRecord] at hm
  obtain ⟨h1, h2, h3⟩ := of_decide_eq_true hm
  subst h1; subst h2; subst h3
  exact countP_eq_zero_of_hasRecord_false hguard

lemma uniquenessInvariant_insert (s : List AttendanceRecord) (u : String)
    (t : RecType) (now : Timestamp) (f : String) (lat lng : ℝ)
    (hguard : hasRecord s u t now.day = false)
    (h : uniquenessInvariant s) :
    uniquenessInvariant (s ++ [mkRecord s u t now f lat lng]) := by
  intro u2 d
  obtain ⟨hc, hk⟩ := h u2 d
  exact ⟨countP_append_mkRecord_le_one s u t now f lat lng u2 RecType.checkin d hc hguard,
    countP_append_mkRecord_le_one s u t now f lat lng u2 RecType.checkout d hk hguard⟩

lemma uniquenessInvariant_sublist {s s2 : List AttendanceRecord}
    (hsub : List.Sublist s2 s) (h : uniquenessInvariant s) :
    uniquenessInvariant s2 := by
  intro u d
  obtain ⟨hc, hk⟩ := h u d
  exact ⟨le_trans (hsub.countP_le _) hc, le_trans (hsub.countP_le _) hk⟩

lemma dailyInvariant_insert_checkin (s : List AttendanceRecord) (u : String)
    (now : Timestamp) (f : String) (lat lng : ℝ)
    (hguard : hasRecord s u RecType.checkin now.day = false)
    (h : dailyInvariant s) :
    dailyInvariant (s ++ [mkRecord s u RecType.checkin now f lat lng]) := by
  intro u2 d
  obtain ⟨hc, hk, himp⟩ := h u2 d
  refine ⟨countP_append_mkRecord_le_one s u RecType.checkin now f lat lng u2 RecType.checkin d hc hguard,
    countP_append_mkRecord_le_one s u RecType.checkin now f lat lng u2 RecType.checkout d hk hguard, ?_⟩
  rw [hasRecord_append, hasRecord_append]
  intro hco
  have hrm : recMatches u2 RecType.checkout d (mkRecord s u RecType.checkin now f lat lng) = false := by
    rw [recMatches_mkRecord]
    simp
  rw [hrm, Bool.or_false] at hco
  rw [himp hco]
  simp

lemma dailyInvariant_insert_checkout (s : List AttendanceRecord) (u : String)
    (now : Timestamp) (f : String) (lat lng : ℝ)
    (hin : hasRecord s u RecType.checkin now.day = true)
    (hout : hasRecord s u RecType.checkout now.day = false)
    (h : dailyInvariant s) :
    dailyInvariant (s ++ [mkRecord s u RecType.checkout now f lat lng]) := by
  intro u2 d
  obtain ⟨hc, hk, himp⟩ := h u2 d
  refine ⟨countP_append_mkRecord_le_one s u RecType.checkout now f lat lng u2 RecType.checkin d hc hout,
    countP_append_mkRecord_le_one s u RecType.checkout now f lat lng u2 RecType.checkout d hk hout, ?_⟩
  rw [hasRecord_append, hasRecord_append]
  intro hco
  rcases (Bool.or_eq_true _ _).mp hco with hleft | hright
  · rw [himp hleft]
    simp
  · rw [recMatches_mkRecord] at hright
    obtain ⟨h1, h2, h3⟩ := of_decide_eq_true hright
    subst h1; subst h3
    rw [hin]
    simp

lemma applyOp_uniq (authorizedLat authorizedLng : ℝ) (radius : ℤ)
    (s : List AttendanceRecord) (op : Op) (h : uniquenessInvariant s) :
    uniquenessInvariant (applyOp authorizedLat authorizedLng radius s op) := by
  cases op with
  | checkin now u req =>
    rcases postCheckin_snd authorizedLat authorizedLng radius now u req s with
      heq | ⟨lat, lng, f, hguard, heq⟩
    · simpa [applyOp, heq] using h
    · rw [applyOp, heq]
      exact uniquenessInvariant_insert s u RecType.checkin now f lat lng hguard h
  | checkout now u req =>
    rcases postCheckout_snd authorizedLat authorizedLng radius now u req s with
      heq | ⟨lat, lng, f, hin, hout, heq⟩
    · simpa [applyOp, heq] using h
    · rw [applyOp, heq]
      exact uniquenessInvariant_insert s u RecType.checkout now f lat lng hout h
  | deleteAtt attendanceId =>
    exact uniquenessInvariant_sublist (deleteAttendance_snd attendanceId s) h

lemma applyOp_daily (authorizedLat authorizedLng : ℝ) (radius : ℤ)
    (s : List AttendanceRecord) (op : Op) (hnd : op.isDelete = false)
    (h : dailyInvariant s) :
    dailyInvariant (applyOp authorizedLat authorizedLng radius s op) := by
  cases op with
  | checkin now u req =>
    rcases postCheckin_snd authorizedLat authorizedLng radius now u req s with
      heq | ⟨lat, lng, f, hguard, heq⟩
    · simpa [applyOp, heq] using h
    · rw [applyOp, heq]
      exact dailyInvariant_insert_checkin s u now f lat lng hguard h
  | checkout now u req =>
    rcases postCheckout_snd authorizedLat authorizedLng radius now u req s with
      heq | ⟨lat, lng, f, hin, hout, heq⟩
    · simpa [applyOp, heq] using h
    · rw [applyOp, heq]
      exact dailyInvariant_insert_checkout s u now f lat lng hin hout h
  | deleteAtt attendanceId => simp [Op.isDelete] at hnd

lemma foldl_uniq (authorizedLat authorizedLng : ℝ) (radius : ℤ) :
    ∀ (ops : List Op) (s : List AttendanceRecord), uniquenessInvariant s →
      uniquenessInvariant (ops.foldl (applyOp authorizedLat authorizedLng radius) s)
  | [], _, h => h
  | op :: ops, s, h =>
    foldl_uniq authorizedLat authorizedLng radius ops _
      (applyOp_uniq authorizedLat authorizedLng radius s op h)

lemma foldl_daily (authorizedLat authorizedLng : ℝ) (radius : ℤ) :
    ∀ (ops : List Op) (s : List AttendanceRecord),
      (∀ op ∈ ops, op.isDelete = false) → dailyInvariant s →
      dailyInvariant (ops.foldl (applyOp authorizedLat authorizedLng radius) s)
  | [], _, _, h => h
  | op :: ops, s, hnd, h =>
    foldl_daily authorizedLat authorizedLng radius ops _
      (fun o ho => hnd o (List.mem_cons_of_mem op ho))
      (applyOp_daily authorizedLat authorizedLng radius s op
        (hnd op (List.mem_cons_self op ops)) h)

lemma uniquenessInvariant_nil : uniquenessInvariant [] := by
  intro u d
  simp [List.countP_nil]

lemma dailyInvariant_nil : dailyInvariant [] := by
  intro u d
  simp [List.countP_nil, hasRecord]

lemma validateCoordinates_finite (lat lng : ℝ)
    (h1 : ¬(lat < -90 ∨ 90 < lat)) (h2 : ¬(lng < -180 ∨ 180 < lng)) :
    validateCoordinates (RawCoord.finite lat) (RawCoord.finite lng) =
      ValidationResult.valid lat lng := by
  unfold validateCoordinates
  rw [if_neg (by simp), if_neg (by simpa [RawCoord.jsLt] using h1),
    if_neg (by simpa [RawCoord.jsLt] using h2)]
  rfl

lemma validateCoordinates_valid_elim {a b : RawCoord} {lat lng : ℝ}
    (h : validateCoordinates a b = ValidationResult.valid lat lng) :
    a = RawCoord.finite lat ∧ b = RawCoord.finite lng ∧
      -90 ≤ lat ∧ lat ≤ 90 ∧ -180 ≤ lng ∧ lng ≤ 180 := by
  by_cases hn : a = RawCoord.nan ∨ b = RawCoord.nan
  · unfold validateCoordinates at h
    rw [if_pos hn] at h
    exact absurd h (by simp)
  · by_cases hla : RawCoord.jsLt a (RawCoord.finite (-90)) ∨
        RawCoord.jsLt (RawCoord.finite 90) a
    · unfold validateCoordinates at h
      rw [if_neg hn, if_pos hla] at h
      exact absurd h (by simp)
    · by_cases hlo : RawCoord.jsLt b (RawCoord.finite (-180)) ∨
          RawCoord.jsLt (RawCoord.finite 180) b
      · unfold validateCoordinates at h
        rw [if_neg hn, if_neg hla, if_pos hlo] at h
        exact absurd h (by simp)
      · unfold validateCoordinates at h
        rw [if_neg hn, if_neg hla, if_neg hlo] at h
        cases a with
        | nan => exact absurd (Or.inl rfl) hn
        | posInf => exact absurd (Or.inr (by simp [RawCoord.jsLt])) hla
        | negInf => exact absurd (Or.inl (by simp [RawCoord.jsLt])) hla
        | finite la =>
          cases b with
          | nan => exact absurd (Or.inr rfl) hn
          | posInf => exact absurd (Or.inr (by simp [RawCoord.jsLt])) hlo
          | negInf => exact absurd (Or.inl (by simp [RawCoord.jsLt])) hlo
          | finite lb =>
            rw [show (RawCoord.finite la).toReal = la from rfl,
              show (RawCoord.finite lb).toReal = lb from rfl] at h
            cases h
            simp only [RawCoord.jsLt] at hla hlo
            push_neg at hla hlo
            exact ⟨rfl, rfl, by linarith [hla.1], hla.2, by linarith [hlo.1], hlo.2⟩

lemma isWithinGeofence_ok (authorizedLat authorizedLng : ℝ) (radius : ℤ)
    (lat lng : ℝ)
    (h : ¬(lat = 0 ∨ lng = 0 ∨ lat < -90 ∨ 90 < lat ∨ lng < -180 ∨ 180 < lng)) :
    isWithinGeofence authorizedLat authorizedLng radius lat lng =
      Except.ok
        { isWithin := calculateDistance authorizedLat authorizedLng lat lng ≤ (radius : ℝ)
          distance := round (calculateDistance authorizedLat authorizedLng lat lng)
          maxDistance := radius
          authorizedLocation := (authorizedLat, authorizedLng) } := by
  simp only [isWithinGeofence, if_neg h]

lemma postCheckin_run (authorizedLat authorizedLng : ℝ) (radius : ℤ)
    (now : Timestamp) (u : String) (req : CheckRequest)
    (store : List AttendanceRecord) (lat lng : ℝ) (f : String)
    (res : GeofenceResult)
    (hv : validateCoordinates req.latitude req.longitude = ValidationResult.valid lat lng)
    (hf : req.photo = some f)
    (hg : isWithinGeofence authorizedLat authorizedLng radius lat lng = Except.ok res)
    (hw : res.isWithin) :
    postCheckin authorizedLat authorizedLng radius now u req store =
      if hasRecord store u RecType.checkin now.day then
        (ApiResult.conflict "You have already checked in today", store)
      else
        (ApiResult.ok (mkRecord store u RecType.checkin now f lat lng),
          store ++ [mkRecord store u RecType.checkin now f lat lng]) := by
  unfold postCheckin
  simp only [hv, hf, hg, hw, ite_true]

lemma postCheckout_run (authorizedLat authorizedLng : ℝ) (radius : ℤ)
    (now : Timestamp) (u : String) (req : CheckRequest)
    (store : List AttendanceRecord) (lat lng : ℝ) (f : String)
    (res : GeofenceResult)
    (hv : validateCoordinates req.latitude req.longitude = ValidationResult.valid lat lng)
    (hf : req.photo = some f)
    (hg : isWithinGeofence authorizedLat authorizedLng radius lat lng = Except.ok res)
    (hw : res.isWithin) :
    postCheckout authorizedLat authorizedLng radius now u req store =
      if hasRecord store u RecType.checkin now.day = false then
        (ApiResult.badRequest "You must check in before checking out", store)
      else if hasRecord store u RecType.checkout now.day then
        (ApiResult.conflict "You have already checked out today", store)
      else
        (ApiResult.ok (mkRecord store u RecType.checkout now f lat lng),
          store ++ [mkRecord store u RecType.checkout now f lat lng]) := by
  unfold postCheckout
  simp only [hv, hf, hg, hw, ite_true]

lemma atan2_pos_x (y x : ℝ) (hx : 0 < x) : atan2 y x = arctan (y / x) := by
  unfold atan2
  rw [if_pos hx]

lemma calculateDistance_same_lng (lat1 lat2 lng : ℝ)
    (h0 : lat1 ≤ lat2) (h1 : lat2 - lat1 < 180) :
    calculateDistance lat1 lng lat2 lng = 6371000 * ((lat2 - lat1) * π / 180) := by
  have hpi := Real.pi_pos
  have hd : 0 ≤ lat2 - lat1 := by linarith
  have hth0 : 0 ≤ (lat2 - lat1) * π / 180 / 2 :=
    div_nonneg (div_nonneg (mul_nonneg hd hpi.le) (by norm_num)) (by norm_num)
  have hm := mul_lt_mul_of_pos_right h1 hpi
  have hthlt : (lat2 - lat1) * π / 180 / 2 < π / 2 := by linarith
  have hsin0 : 0 ≤ Real.sin ((lat2 - lat1) * π / 180 / 2) :=
    Real.sin_nonneg_of_nonneg_of_le_pi hth0 (by linarith)
  have hcos0 : 0 < Real.cos ((lat2 - lat1) * π / 180 / 2) :=
    Real.cos_pos_of_mem_Ioo ⟨by linarith, hthlt⟩
  simp only [calculateDistance, sub_self]
  rw [show ((0:ℝ) * π / 180 / 2) = 0 by ring, Real.sin_zero]
  rw [show Real.sin ((lat2 - lat1) * π / 180 / 2) * Real.sin ((lat2 - lat1) * π / 180 / 2) +
      Real.cos (lat1 * π / 180) * Real.cos (lat2 * π / 180) * 0 * 0 =
      Real.sin ((lat2 - lat1) * π / 180 / 2) * Real.sin ((lat2 - lat1) * π / 180 / 2) from by ring]
  rw [Real.sqrt_mul_self hsin0]
  rw [show 1 - Real.sin ((lat2 - lat1) * π / 180 / 2) * Real.sin ((lat2 - lat1) * π / 180 / 2) =
      Real.cos ((lat2 - lat1) * π / 180 / 2) * Real.cos ((lat2 - lat1) * π / 180 / 2) from by
    nlinarith [Real.sin_sq_add_cos_sq ((lat2 - lat1) * π / 180 / 2)]]
  rw [Real.sqrt_mul_self hcos0.le]
  rw [atan2_pos_x _ _ hcos0, ← Real.tan_eq_sin_div_cos, Real.arctan_tan (by linarith) hthlt]
  ring

/-- Claim C7: calculateDistance equals the haversine reference equations of
the spec (computeDistanceMeters) on a sphere of radius 6371000 meters, and
the distance from any point to itself is 0. -/
theorem C7_haversine :
    (∀ lat1 lon1 lat2 lon2 : ℝ,
      calculateDistance lat1 lon1 lat2 lon2 = computeDistanceMeters (lat1, lon1) (lat2, lon2)) ∧
    (∀ lat lng : ℝ, calculateDistance lat lng lat lng = 0) :=
  ⟨fun _ _ _ _ => rfl, calculateDistance_self⟩

/-- Claim C8: calculateDistance is symmetric in its two coordinate pairs;
in the real-number embedding the two values are exactly equal, hence in
particular within the 1e-6 meter tolerance stated by the spec. The function
is a pure function of its arguments by construction. -/
theorem C8_distance_symm (lat1 lon1 lat2 lon2 : ℝ) :
    calculateDistance lat1 lon1 lat2 lon2 = calculateDistance lat2 lon2 lat1 lon1 ∧
    |calculateDistance lat1 lon1 lat2 lon2 - calculateDistance lat2 lon2 lat1 lon1| ≤
      1 / 1000000 := by
  refine ⟨calculateDistance_comm lat1 lon1 lat2 lon2, ?_⟩
  rw [calculateDistance_comm lat1 lon1 lat2 lon2, sub_self, abs_zero]
  norm_num

/-- Claim C5: the claim states that a coordinate accepted by
validateCoordinates can never reach the InvalidCoordinates branch of
isWithinGeofence. The code contradicts this: the guard
(!userLat || !userLng) treats the valid coordinate value 0 as missing, so
the validated pair (latitude -6.2, longitude 0) makes isWithinGeofence
throw. This evaluates the embedded code at that failing input. -/
theorem C5_code_bug_eval :
    validateCoordinates (RawCoord.finite (-6.2)) (RawCoord.finite 0) =
      ValidationResult.valid (-6.2) 0 ∧
    isWithinGeofence (-6.2) 106.816666 500 (-6.2) 0 =
      Except.error "Invalid coordinates provided" := by
  constructor
  · exact validateCoordinates_finite _ _ (by norm_num) (by norm_num)
  · unfold isWithinGeofence
    rw [if_pos (by norm_num)]

/-- Claim C6, counterexample to the claim as stated: an input that parses
to positive infinity (for example the string Infinity, or 1e999) does not
parse to a finite number, yet the code does not fail with the
invalid-format message: isNaN is false for an infinite value, so the range
check answers with the latitude range error instead. The spec-side
taxonomy, which follows the claim in demanding InvalidFormat for every
non-finite parse, disagrees with the code at this input. -/
theorem C6_counterexample :
    validateCoordinates RawCoord.posInf (RawCoord.finite 10) =
      ValidationResult.invalid "Latitude must be between -90 and 90" ∧
    validateCoordinates RawCoord.posInf (RawCoord.finite 10) ≠
      ValidationResult.invalid "Coordinates must be valid numbers" ∧
    validateCoordinatesSpec RawCoord.posInf (RawCoord.finite 10) =
      CoordOutcome.invalidFormat := by
  have h1 : validateCoordinates RawCoord.posInf (RawCoord.finite 10) =
      ValidationResult.invalid "Latitude must be between -90 and 90" := by
    unfold validateCoordinates
    rw [if_neg (by simp), if_pos (Or.inr (by simp [RawCoord.jsLt]))]
  refine ⟨h1, ?_, rfl⟩
  rw [h1]
  simp

/-- Claim C6, amended: validateCoordinates fails with the invalid-format
message exactly when either input parses to NaN; an input parsing to an
infinite value is instead rejected by the corresponding range check
(infinite latitude gives the latitude range error, infinite longitude,
with the latitude in range, gives the longitude range error). For inputs
with no infinite parse the behaviour is as originally claimed, stated as
a refinement against the spec-side taxonomy validateCoordinatesSpec:
format check first, then latitude range, then longitude range, then
success with the parsed pair; the three concrete examples of the claim
hold unchanged. -/
theorem C6_validate_coordinates :
    (∀ a b : RawCoord, a ≠ RawCoord.posInf → a ≠ RawCoord.negInf →
      b ≠ RawCoord.posInf → b ≠ RawCoord.negInf →
      (validateCoordinates a b = ValidationResult.invalid "Coordinates must be valid numbers" ↔
        validateCoordinatesSpec a b = CoordOutcome.invalidFormat) ∧
      (validateCoordinates a b = ValidationResult.invalid "Latitude must be between -90 and 90" ↔
        validateCoordinatesSpec a b = CoordOutcome.latitudeOutOfRange) ∧
      (validateCoordinates a b = ValidationResult.invalid "Longitude must be between -180 and 180" ↔
        validateCoordinatesSpec a b = CoordOutcome.longitudeOutOfRange) ∧
      (∀ lat lng : ℝ, validateCoordinates a b = ValidationResult.valid lat lng ↔
        validateCoordinatesSpec a b = CoordOutcome.ok lat lng)) ∧
    (∀ b : RawCoord, b ≠ RawCoord.nan →
      validateCoordinates RawCoord.posInf b =
        ValidationResult.invalid "Latitude must be between -90 and 90" ∧
      validateCoordinates RawCoord.negInf b =
        ValidationResult.invalid "Latitude must be between -90 and 90") ∧
    (∀ la : ℝ, ¬(la < -90 ∨ 90 < la) →
      validateCoordinates (RawCoord.finite la) RawCoord.posInf =
        ValidationResult.invalid "Longitude must be between -180 and 180" ∧
      validateCoordinates (RawCoord.finite la) RawCoord.negInf =
        ValidationResult.invalid "Longitude must be between -180 and 180") ∧
    validateCoordinates (RawCoord.finite 91) (RawCoord.finite 0) =
      ValidationResult.invalid "Latitude must be between -90 and 90" ∧
    validateCoordinates RawCoord.nan (RawCoord.finite 10) =
      ValidationResult.invalid "Coordinates must be valid numbers" ∧
    validateCoordinates (RawCoord.finite 0) (RawCoord.finite 181) =
      ValidationResult.invalid "Longitude must be between -180 and 180" := by
  refine ⟨?_, ?_, ?_,
    by
      unfold validateCoordinates
      rw [if_neg (by simp), if_pos (Or.inr (by norm_num [RawCoord.jsLt]))],
    by simp [validateCoordinates],
    by
      unfold validateCoordinates
      rw [if_neg (by simp), if_neg (by norm_num [RawCoord.jsLt]),
        if_pos (Or.inr (by norm_num [RawCoord.jsLt]))]⟩
  · intro a b hap han hbp hbn
    cases a with
    | posInf => exact absurd rfl hap
    | negInf => exact absurd rfl han
    | nan =>
      cases b with
      | posInf => exact absurd rfl hbp
      | negInf => exact absurd rfl hbn
      | nan => simp [validateCoordinates, validateCoordinatesSpec]
      | finite lb => simp [validateCoordinates, validateCoordinatesSpec]
    | finite la =>
      cases b with
      | posInf => exact absurd rfl hbp
      | negInf => exact absurd rfl hbn
      | nan => simp [validateCoordinates, validateCoordinatesSpec]
      | finite lb =>
        by_cases h1 : la < -90 ∨ 90 < la
        · simp [validateCoordinates, validateCoordinatesSpec, RawCoord.jsLt, h1]
        · by_cases h2 : lb < -180 ∨ 180 < lb
          · simp [validateCoordinates, validateCoordinatesSpec, RawCoord.jsLt, h1, h2]
          · simp [validateCoordinates, validateCoordinatesSpec, RawCoord.jsLt,
              RawCoord.toReal, h1, h2]
  · intro b hb
    constructor
    · unfold validateCoordinates
      rw [if_neg (by simp [hb]), if_pos (Or.inr (by simp [RawCoord.jsLt]))]
    · unfold validateCoordinates
      rw [if_neg (by simp [hb]), if_pos (Or.inl (by simp [RawCoord.jsLt]))]
  · intro la hla
    constructor
    · unfold validateCoordinates
      rw [if_neg (by simp), if_neg (by simpa [RawCoord.jsLt] using hla),
        if_pos (Or.inr (by simp [RawCoord.jsLt]))]
    · unfold validateCoordinates
      rw [if_neg (by simp), if_neg (by simpa [RawCoord.jsLt] using hla),
        if_pos (Or.inl (by simp [RawCoord.jsLt]))]

/-- Witness for claim C6: the amended theorem instantiated at the finite
pair (91, 0), at longitude 10 beside an infinite latitude, and at the
in-range latitude 0 beside an infinite longitude. -/
theorem C6_witness :
    ((validateCoordinates (RawCoord.finite 91) (RawCoord.finite 0) =
        ValidationResult.invalid "Coordinates must be valid numbers" ↔
      validateCoordinatesSpec (RawCoord.finite 91) (RawCoord.finite 0) =
        CoordOutcome.invalidFormat) ∧
     (validateCoordinates (RawCoord.finite 91) (RawCoord.finite 0) =
        ValidationResult.invalid "Latitude must be between -90 and 90" ↔
      validateCoordinatesSpec (RawCoord.finite 91) (RawCoord.finite 0) =
        CoordOutcome.latitudeOutOfRange) ∧
     (validateCoordinates (RawCoord.finite 91) (RawCoord.finite 0) =
        ValidationResult.invalid "Longitude must be between -180 and 180" ↔
      validateCoordinatesSpec (RawCoord.finite 91) (RawCoord.finite 0) =
        CoordOutcome.longitudeOutOfRange) ∧
     (∀ lat lng : ℝ,
        validateCoordinates (RawCoord.finite 91) (RawCoord.finite 0) =
          ValidationResult.valid lat lng ↔
        validateCoordinatesSpec (RawCoord.finite 91) (RawCoord.finite 0) =
          CoordOutcome.ok lat lng)) ∧
    (validateCoordinates RawCoord.posInf (RawCoord.finite 10) =
      ValidationResult.invalid "Latitude must be between -90 and 90" ∧
     validateCoordinates RawCoord.negInf (RawCoord.finite 10) =
      ValidationResult.invalid "Latitude must be between -90 and 90") ∧
    (validateCoordinates (RawCoord.finite 0) RawCoord.posInf =
      ValidationResult.invalid "Longitude must be between -180 and 180" ∧
     validateCoordinates (RawCoord.finite 0) RawCoord.negInf =
      ValidationResult.invalid "Longitude must be between -180 and 180") :=
  ⟨C6_validate_coordinates.1 (RawCoord.finite 91) (RawCoord.finite 0)
      (by simp) (by simp) (by simp) (by simp),
    C6_validate_coordinates.2.1 (RawCoord.finite 10) (by simp),
    C6_validate_coordinates.2.2.1 0 (by norm_num)⟩

/-- Claim C2, counterexample to the claim as stated: the coordinate pair
(0, 106.816666) is accepted by validateCoordinates, yet isWithinGeofence
does not return a GeofenceResult for it at all: the falsy input guard
throws on latitude 0. -/
theorem C2_counterexample :
    validateCoordinates (RawCoord.finite 0) (RawCoord.finite 106.816666) =
      ValidationResult.valid 0 106.816666 ∧
    isWithinGeofence (-6.2) 106.816666 500 0 106.816666 =
      Except.error "Invalid coordinates provided" := by
  constructor
  · exact validateCoordinates_finite _ _ (by norm_num) (by norm_num)
  · unfold isWithinGeofence
    rw [if_pos (by norm_num)]

/-- Claim C2, amended: for every validated claimed coordinate whose
latitude and longitude are both nonzero, isWithinGeofence returns a
GeofenceResult whose isWithin flag is the truth of distance <= radius (so
a point at exactly radius distance is within the fence and one meter
further is not), whose distance field is the distance rounded to the
nearest integer meter, whose maxDistance is the configured radius, and
whose authorizedLocation is the configured coordinate. -/
theorem C2_geofence_result (authorizedLat authorizedLng : ℝ) (radius : ℤ)
    (rawLat rawLng : RawCoord) (lat lng : ℝ)
    (hv : validateCoordinates rawLat rawLng = ValidationResult.valid lat lng)
    (hlat : lat ≠ 0) (hlng : lng ≠ 0) :
    ∃ res : GeofenceResult,
      isWithinGeofence authorizedLat authorizedLng radius lat lng = Except.ok res ∧
      (res.isWithin ↔ calculateDistance authorizedLat authorizedLng lat lng ≤ (radius : ℝ)) ∧
      res.distance = round (calculateDistance authorizedLat authorizedLng lat lng) ∧
      res.maxDistance = radius ∧
      res.authorizedLocation = (authorizedLat, authorizedLng) ∧
      (calculateDistance authorizedLat authorizedLng lat lng = (radius : ℝ) → res.isWithin) ∧
      (calculateDistance authorizedLat authorizedLng lat lng = (radius : ℝ) + 1 →
        ¬ res.isWithin) := by
  obtain ⟨-, -, hr1, hr2, hr3, hr4⟩ := validateCoordinates_valid_elim hv
  have hcond : ¬(lat = 0 ∨ lng = 0 ∨ lat < -90 ∨ 90 < lat ∨ lng < -180 ∨ 180 < lng) := by
    push_neg
    exact ⟨hlat, hlng, by linarith, by linarith, by linarith, by linarith⟩
  refine ⟨_, isWithinGeofence_ok authorizedLat authorizedLng radius lat lng hcond,
    Iff.rfl, rfl, rfl, rfl, ?_, ?_⟩
  · intro he
    exact le_of_eq he
  · intro he hle
    have hcast : calculateDistance authorizedLat authorizedLng lat lng ≤ (radius : ℝ) := hle
    rw [he] at hcast
    linarith

/-- Witness for claim C2 at the default configuration and the authorized
point itself, whose coordinates are nonzero and pass validation. -/
theorem C2_witness :
    ∃ res : GeofenceResult,
      isWithinGeofence (-6.2) 106.816666 500 (-6.2) 106.816666 = Except.ok res ∧
      (res.isWithin ↔ calculateDistance (-6.2) 106.816666 (-6.2) 106.816666 ≤ ((500 : ℤ) : ℝ)) ∧
      res.distance = round (calculateDistance (-6.2) 106.816666 (-6.2) 106.816666) ∧
      res.maxDistance = 500 ∧
      res.authorizedLocation = (-6.2, 106.816666) ∧
      (calculateDistance (-6.2) 106.816666 (-6.2) 106.816666 = ((500 : ℤ) : ℝ) → res.isWithin) ∧
      (calculateDistance (-6.2) 106.816666 (-6.2) 106.816666 = ((500 : ℤ) : ℝ) + 1 →
        ¬ res.isWithin) :=
  C2_geofence_result (-6.2) 106.816666 500 (RawCoord.finite (-6.2))
    (RawCoord.finite 106.816666) (-6.2) 106.816666
    (validateCoordinates_finite _ _ (by norm_num) (by norm_num))
    (by norm_num) (by norm_num)

lemma distance_C10 :
    calculateDistance (-6.2) 106.816666 (-6.1955) 106.816666 = 159.275 * π := by
  rw [calculateDistance_same_lng (-6.2) (-6.1955) 106.816666 (by norm_num) (by norm_num)]
  norm_num
  ring

/-- Claim C10: the fence decision uses the unrounded distance while the
reported distance is rounded, so there is a validated coordinate (here
latitude -6.1955, longitude 106.816666, at true distance strictly between
500 and 500.5 meters from the default authorized point) for which
isWithinGeofence reports isWithin false while the returned distance field
equals the maxDistance field of 500. -/
theorem C10_rounding_boundary :
    validateCoordinates (RawCoord.finite (-6.1955)) (RawCoord.finite 106.816666) =
      ValidationResult.valid (-6.1955) 106.816666 ∧
    (500 : ℝ) < calculateDistance (-6.2) 106.816666 (-6.1955) 106.816666 ∧
    calculateDistance (-6.2) 106.816666 (-6.1955) 106.816666 < 500 + 1 / 2 ∧
    isWithinGeofence (-6.2) 106.816666 500 (-6.1955) 106.816666 =
      Except.ok
        { isWithin := calculateDistance (-6.2) 106.816666 (-6.1955) 106.816666 ≤ ((500 : ℤ) : ℝ)
          distance := round (calculateDistance (-6.2) 106.816666 (-6.1955) 106.816666)
          maxDistance := 500
          authorizedLocation := (-6.2, 106.816666) } ∧
    ¬ (calculateDistance (-6.2) 106.816666 (-6.1955) 106.816666 ≤ ((500 : ℤ) : ℝ)) ∧
    round (calculateDistance (-6.2) 106.816666 (-6.1955) 106.816666) = (500 : ℤ) := by
  have hlow : (500 : ℝ) < 159.275 * π := by nlinarith [Real.pi_gt_d6]
  have hhigh : (159.275 : ℝ) * π < 500 + 1 / 2 := by nlinarith [Real.pi_lt_d6]
  refine ⟨validateCoordinates_finite _ _ (by norm_num) (by norm_num), ?_, ?_, ?_, ?_, ?_⟩
  · rw [distance_C10]
    exact hlow
  · rw [distance_C10]
    exact hhigh
  · exact isWithinGeofence_ok (-6.2) 106.816666 500 (-6.1955) 106.816666 (by norm_num)
  · intro hle
    rw [distance_C10] at hle
    have hcast : ((500 : ℤ) : ℝ) = 500 := by norm_num
    rw [hcast] at hle
    linarith
  · rw [distance_C10, round_eq, Int.floor_eq_iff]
    constructor
    · push_cast
      linarith
    · push_cast
      linarith

/-- Claim C9: a check-in or check-out action appends exactly one attendance
record when its response is a success, and leaves the stored records
unchanged whenever the response is any failure (invalid coordinates,
missing photo, geofence error or rejection, or a state-machine conflict). -/
theorem C9_no_record_on_error (authorizedLat authorizedLng : ℝ) (radius : ℤ)
    (now : Timestamp) (u : String) (req : CheckRequest)
    (store : List AttendanceRecord) :
    ((postCheckin authorizedLat authorizedLng radius now u req store).2 =
      match (postCheckin authorizedLat authorizedLng radius now u req store).1 with
      | ApiResult.ok record => store ++ [record]
      | _ => store) ∧
    ((postCheckout authorizedLat authorizedLng radius now u req store).2 =
      match (postCheckout authorizedLat authorizedLng radius now u req store).1 with
      | ApiResult.ok record => store ++ [record]
      | _ => store) := by
  constructor
  · unfold postCheckin
    repeat' split <;> try rfl
  · unfold postCheckout
    repeat' split <;> try rfl

/-- Claim C3: with a validated coordinate that the geofence accepts and a
photo present, check-out fails with the not-checked-in message when no
checkin record exists for (userId, day); fails with the already-checked-out
message when a checkout record already exists; and otherwise succeeds,
appending a checkout record owned by that user whose timestamp is the
server clock argument now (the request carries no timestamp field). -/
theorem C3_checkout_transitions (authorizedLat authorizedLng : ℝ) (radius : ℤ)
    (now : Timestamp) (u : String) (req : CheckRequest)
    (store : List AttendanceRecord) (lat lng : ℝ) (f : String)
    (res : GeofenceResult)
    (hv : validateCoordinates req.latitude req.longitude = ValidationResult.valid lat lng)
    (hf : req.photo = some f)
    (hg : isWithinGeofence authorizedLat authorizedLng radius lat lng = Except.ok res)
    (hw : res.isWithin) :
    (postCheckout authorizedLat authorizedLng radius now u req store =
      if hasRecord store u RecType.checkin now.day = false then
        (ApiResult.badRequest "You must check in before checking out", store)
      else if hasRecord store u RecType.checkout now.day then
        (ApiResult.conflict "You have already checked out today", store)
      else
        (ApiResult.ok (mkRecord store u RecType.checkout now f lat lng),
          store ++ [mkRecord store u RecType.checkout now f lat lng])) ∧
    (mkRecord store u RecType.checkout now f lat lng).userId = u ∧
    (mkRecord store u RecType.checkout now f lat lng).type = RecType.checkout ∧
    (mkRecord store u RecType.checkout now f lat lng).timestamp = now :=
  ⟨postCheckout_run authorizedLat authorizedLng radius now u req store lat lng f res
    hv hf hg hw, rfl, rfl, rfl⟩

/-- Witness for claim C3: the default configuration, a request at the
authorized point with a photo, and a store holding exactly one checkin
record of the same user and day. -/
theorem C3_witness :
    (postCheckout (-6.2) 106.816666 500 ⟨0, 17⟩ "19900101"
      ⟨RawCoord.finite (-6.2), RawCoord.finite 106.816666, some "out.jpg"⟩
      [⟨1, "19900101", RecType.checkin, ⟨0, 8⟩, "uploads/attendance/in.jpg", -6.2, 106.816666⟩] =
      if hasRecord
          [⟨1, "19900101", RecType.checkin, ⟨0, 8⟩, "uploads/attendance/in.jpg", -6.2, 106.816666⟩]
          "19900101" RecType.checkin (Timestamp.mk 0 17).day = false then
        (ApiResult.badRequest "You must check in before checking out",
          [⟨1, "19900101", RecType.checkin, ⟨0, 8⟩, "uploads/attendance/in.jpg", -6.2, 106.816666⟩])
      else if hasRecord
          [⟨1, "19900101", RecType.checkin, ⟨0, 8⟩, "uploads/attendance/in.jpg", -6.2, 106.816666⟩]
          "19900101" RecType.checkout (Timestamp.mk 0 17).day then
        (ApiResult.conflict "You have already checked out today",
          [⟨1, "19900101", RecType.checkin, ⟨0, 8⟩, "uploads/attendance/in.jpg", -6.2, 106.816666⟩])
      else
        (ApiResult.ok (mkRecord
          [⟨1, "19900101", RecType.checkin, ⟨0, 8⟩, "uploads/attendance/in.jpg", -6.2, 106.816666⟩]
          "19900101" RecType.checkout ⟨0, 17⟩ "out.jpg" (-6.2) 106.816666),
          [⟨1, "19900101", RecType.checkin, ⟨0, 8⟩, "uploads/attendance/in.jpg", -6.2, 106.816666⟩] ++
            [mkRecord
              [⟨1, "19900101", RecType.checkin, ⟨0, 8⟩, "uploads/attendance/in.jpg", -6.2, 106.816666⟩]
              "19900101" RecType.checkout ⟨0, 17⟩ "out.jpg" (-6.2) 106.816666])) ∧
    (mkRecord
      [⟨1, "19900101", RecType.checkin, ⟨0, 8⟩, "uploads/attendance/in.jpg", -6.2, 106.816666⟩]
      "19900101" RecType.checkout ⟨0, 17⟩ "out.jpg" (-6.2) 106.816666).userId = "19900101" ∧
    (mkRecord
      [⟨1, "19900101", RecType.checkin, ⟨0, 8⟩, "uploads/attendance/in.jpg", -6.2, 106.816666⟩]
      "19900101" RecType.checkout ⟨0, 17⟩ "out.jpg" (-6.2) 106.816666).type = RecType.checkout ∧
    (mkRecord
      [⟨1, "19900101", RecType.checkin, ⟨0, 8⟩, "uploads/attendance/in.jpg", -6.2, 106.816666⟩]
      "19900101" RecType.checkout ⟨0, 17⟩ "out.jpg" (-6.2) 106.816666).timestamp = ⟨0, 17⟩ :=
  C3_checkout_transitions (-6.2) 106.816666 500 ⟨0, 17⟩ "19900101"
    ⟨RawCoord.finite (-6.2), RawCoord.finite 106.816666, some "out.jpg"⟩
    [⟨1, "19900101", RecType.checkin, ⟨0, 8⟩, "uploads/attendance/in.jpg", -6.2, 106.816666⟩]
    (-6.2) 106.816666 "out.jpg" _
    (validateCoordinates_finite _ _ (by norm_num) (by norm_num)) rfl
    (isWithinGeofence_ok (-6.2) 106.816666 500 (-6.2) 106.816666 (by norm_num))
    (by
      show calculateDistance (-6.2) 106.816666 (-6.2) 106.816666 ≤ ((500 : ℤ) : ℝ)
      rw [calculateDistance_self]
      norm_num)

/-- Claim C4: with a validated coordinate that the geofence accepts and a
photo present, check-in fails with the already-checked-in message when a
checkin record exists for (userId, day), and otherwise succeeds, appending
a checkin record owned by that user whose timestamp is the server clock
argument now; moreover, when the first check-in succeeded, an immediate
second check-in against the resulting store fails with the
already-checked-in message and inserts nothing. -/
theorem C4_checkin_transitions (authorizedLat authorizedLng : ℝ) (radius : ℤ)
    (now : Timestamp) (u : String) (req : CheckRequest)
    (store : List AttendanceRecord) (lat lng : ℝ) (f : String)
    (res : GeofenceResult)
    (hv : validateCoordinates req.latitude req.longitude = ValidationResult.valid lat lng)
    (hf : req.photo = some f)
    (hg : isWithinGeofence authorizedLat authorizedLng radius lat lng = Except.ok res)
    (hw : res.isWithin) :
    (postCheckin authorizedLat authorizedLng radius now u req store =
      if hasRecord store u RecType.checkin now.day then
        (ApiResult.conflict "You have already checked in today", store)
      else
        (ApiResult.ok (mkRecord store u RecType.checkin now f lat lng),
          store ++ [mkRecord store u RecType.checkin now f lat lng])) ∧
    (mkRecord store u RecType.checkin now f lat lng).userId = u ∧
    (mkRecord store u RecType.checkin now f lat lng).type = RecType.checkin ∧
    (mkRecord store u RecType.checkin now f lat lng).timestamp = now ∧
    (postCheckin authorizedLat authorizedLng radius now u req
        (store ++ [mkRecord store u RecType.checkin now f lat lng]) =
      (ApiResult.conflict "You have already checked in today",
        store ++ [mkRecord store u RecType.checkin now f lat lng])) := by
  refine ⟨postCheckin_run authorizedLat authorizedLng radius now u req store lat lng f res
    hv hf hg hw, rfl, rfl, rfl, ?_⟩
  rw [postCheckin_run authorizedLat authorizedLng radius now u req
    (store ++ [mkRecord store u RecType.checkin now f lat lng]) lat lng f res hv hf hg hw]
  have htrue : hasRecord (store ++ [mkRecord store u RecType.checkin now f lat lng])
      u RecType.checkin now.day = true := by
    rw [hasRecord_append, recMatches_mkRecord]
    simp
  rw [htrue]
  simp

/-- Witness for claim C4: the default configuration, a request at the
authorized point with a photo, and an initially empty store. -/
theorem C4_witness :
    (postCheckin (-6.2) 106.816666 500 ⟨0, 8⟩ "19900101"
      ⟨RawCoord.finite (-6.2), RawCoord.finite 106.816666, some "in.jpg"⟩ [] =
      if hasRecord [] "19900101" RecType.checkin (Timestamp.mk 0 8).day then
        (ApiResult.conflict "You have already checked in today", [])
      else
        (ApiResult.ok (mkRecord [] "19900101" RecType.checkin ⟨0, 8⟩ "in.jpg" (-6.2) 106.816666),
          [] ++ [mkRecord [] "19900101" RecType.checkin ⟨0, 8⟩ "in.jpg" (-6.2) 106.816666])) ∧
    (mkRecord [] "19900101" RecType.checkin ⟨0, 8⟩ "in.jpg" (-6.2) 106.816666).userId =
      "19900101" ∧
    (mkRecord [] "19900101" RecType.checkin ⟨0, 8⟩ "in.jpg" (-6.2) 106.816666).type =
      RecType.checkin ∧
    (mkRecord [] "19900101" RecType.checkin ⟨0, 8⟩ "in.jpg" (-6.2) 106.816666).timestamp =
      ⟨0, 8⟩ ∧
    (postCheckin (-6.2) 106.816666 500 ⟨0, 8⟩ "19900101"
      ⟨RawCoord.finite (-6.2), RawCoord.finite 106.816666, some "in.jpg"⟩
      ([] ++ [mkRecord [] "19900101" RecType.checkin ⟨0, 8⟩ "in.jpg" (-6.2) 106.816666]) =
      (ApiResult.conflict "You have already checked in today",
        [] ++ [mkRecord [] "19900101" RecType.checkin ⟨0, 8⟩ "in.jpg" (-6.2) 106.816666])) :=
  C4_checkin_transitions (-6.2) 106.816666 500 ⟨0, 8⟩ "19900101"
    ⟨RawCoord.finite (-6.2), RawCoord.finite 106.816666, some "in.jpg"⟩ []
    (-6.2) 106.816666 "in.jpg" _
    (validateCoordinates_finite _ _ (by norm_num) (by norm_num)) rfl
    (isWithinGeofence_ok (-6.2) 106.816666 500 (-6.2) 106.816666 (by norm_num))
    (by
      show calculateDistance (-6.2) 106.816666 (-6.2) 106.816666 ≤ ((500 : ℤ) : ℝ)
      rw [calculateDistance_self]
      norm_num)

/-- Claim C1, amended: over every sequence of check-in, check-out and
administrative deletion operations from the empty record set, the per-day
uniqueness part of the invariant always holds (at most one checkin and at
most one checkout per user and calendar date); the full invariant,
including that a checkout record exists only when a checkin record for the
same user and date exists, holds for every sequence that contains no
administrative deletion. Deletion can break the checkout-implies-checkin
part by removing a checkin record whose checkout remains. -/
theorem C1_amended_invariant (authorizedLat authorizedLng : ℝ) (radius : ℤ)
    (ops : List Op) :
    uniquenessInvariant (runOps authorizedLat authorizedLng radius ops) ∧
    ((∀ op ∈ ops, op.isDelete = false) →
      dailyInvariant (runOps authorizedLat authorizedLng radius ops)) := by
  constructor
  · unfold runOps
    exact foldl_uniq authorizedLat authorizedLng radius ops [] uniquenessInvariant_nil
  · intro hnd
    unfold runOps
    exact foldl_daily authorizedLat authorizedLng radius ops [] hnd dailyInvariant_nil

/-- Witness for claim C1: the amended invariant instantiated at a concrete
deletion-free sequence. -/
theorem C1_witness :
    uniquenessInvariant (runOps (-6.2) 106.816666 500
      [Op.checkin ⟨0, 8⟩ "19900101"
        ⟨RawCoord.finite (-6.2), RawCoord.finite 106.816666, some "in.jpg"⟩]) ∧
    dailyInvariant (runOps (-6.2) 106.816666 500
      [Op.checkin ⟨0, 8⟩ "19900101"
        ⟨RawCoord.finite (-6.2), RawCoord.finite 106.816666, some "in.jpg"⟩]) :=
  ⟨(C1_amended_invariant (-6.2) 106.816666 500 _).1,
    (C1_amended_invariant (-6.2) 106.816666 500 _).2 (by simp [Op.isDelete])⟩

/-- Claim C1, counterexample to the claim as stated: check in, check out,
then administratively delete the checkin record (id 1). The remaining
store holds a checkout record for (user 19900101, day 0) with no checkin
record for that user and day, violating the invariant. -/
theorem C1_counterexample :
    ¬ dailyInvariant (runOps (-6.2) 106.816666 500
      [Op.checkin ⟨0, 8⟩ "19900101"
        ⟨RawCoord.finite (-6.2), RawCoord.finite 106.816666, some "in.jpg"⟩,
       Op.checkout ⟨0, 17⟩ "19900101"
        ⟨RawCoord.finite (-6.2), RawCoord.finite 106.816666, some "out.jpg"⟩,
       Op.deleteAtt 1]) := by
  have hv : validateCoordinates (RawCoord.finite (-6.2)) (RawCoord.finite 106.816666) =
      ValidationResult.valid (-6.2) 106.816666 :=
    validateCoordinates_finite _ _ (by norm_num) (by norm_num)
  have hg := isWithinGeofence_ok (-6.2) 106.816666 500 (-6.2) 106.816666 (by norm_num)
  have hw : calculateDistance (-6.2) 106.816666 (-6.2) 106.816666 ≤ ((500 : ℤ) : ℝ) := by
    rw [calculateDistance_self]
    norm_num
  have hpost1 : postCheckin (-6.2) 106.816666 500 ⟨0, 8⟩ "19900101"
      ⟨RawCoord.finite (-6.2), RawCoord.finite 106.816666, some "in.jpg"⟩ [] =
      (ApiResult.ok (mkRecord [] "19900101" RecType.checkin ⟨0, 8⟩ "in.jpg" (-6.2) 106.816666),
        [mkRecord [] "19900101" RecType.checkin ⟨0, 8⟩ "in.jpg" (-6.2) 106.816666]) := by
    rw [postCheckin_run (-6.2) 106.816666 500 ⟨0, 8⟩ "19900101"
      ⟨RawCoord.finite (-6.2), RawCoord.finite 106.816666, some "in.jpg"⟩ []
      (-6.2) 106.816666 "in.jpg" _ hv rfl hg hw]
    rfl
  have hpost2 : postCheckout (-6.2) 106.816666 500 ⟨0, 17⟩ "19900101"
      ⟨RawCoord.finite (-6.2), RawCoord.finite 106.816666, some "out.jpg"⟩
      [mkRecord [] "19900101" RecType.checkin ⟨0, 8⟩ "in.jpg" (-6.2) 106.816666] =
      (ApiResult.ok (mkRecord
          [mkRecord [] "19900101" RecType.checkin ⟨0, 8⟩ "in.jpg" (-6.2) 106.816666]
          "19900101" RecType.checkout ⟨0, 17⟩ "out.jpg" (-6.2) 106.816666),
        [mkRecord [] "19900101" RecType.checkin ⟨0, 8⟩ "in.jpg" (-6.2) 106.816666,
          mkRecord [mkRecord [] "19900101" RecType.checkin ⟨0, 8⟩ "in.jpg" (-6.2) 106.816666]
            "19900101" RecType.checkout ⟨0, 17⟩ "out.jpg" (-6.2) 106.816666]) := by
    rw [postCheckout_run (-6.2) 106.816666 500 ⟨0, 17⟩ "19900101"
      ⟨RawCoord.finite (-6.2), RawCoord.finite 106.816666, some "out.jpg"⟩
      [mkRecord [] "19900101" RecType.checkin ⟨0, 8⟩ "in.jpg" (-6.2) 106.816666]
      (-6.2) 106.816666 "out.jpg" _ hv rfl hg hw]
    rfl
  have hrun : runOps (-6.2) 106.816666 500
      [Op.checkin ⟨0, 8⟩ "19900101"
        ⟨RawCoord.finite (-6.2), RawCoord.finite 106.816666, some "in.jpg"⟩,
       Op.checkout ⟨0, 17⟩ "19900101"
        ⟨RawCoord.finite (-6.2), RawCoord.finite 106.816666, some "out.jpg"⟩,
       Op.deleteAtt 1] =
      [mkRecord [mkRecord [] "19900101" RecType.checkin ⟨0, 8⟩ "in.jpg" (-6.2) 106.816666]
        "19900101" RecType.checkout ⟨0, 17⟩ "out.jpg" (-6.2) 106.816666] := by
    simp only [runOps, List.foldl, applyOp]
    rw [hpost1]
    rw [show (ApiResult.ok (mkRecord [] "19900101" RecType.checkin ⟨0, 8⟩ "in.jpg"
        (-6.2) 106.816666),
        [mkRecord [] "19900101" RecType.checkin ⟨0, 8⟩ "in.jpg" (-6.2) 106.816666]).2 =
      [mkRecord [] "19900101" RecType.checkin ⟨0, 8⟩ "in.jpg" (-6.2) 106.816666] from rfl]
    rw [hpost2]
    rfl
  rw [hrun]
  intro h
  have h3 := (h "19900101" 0).2.2
  have hco : hasRecord
      [mkRecord [mkRecord [] "19900101" RecType.checkin ⟨0, 8⟩ "in.jpg" (-6.2) 106.816666]
        "19900101" RecType.checkout ⟨0, 17⟩ "out.jpg" (-6.2) 106.816666]
      "19900101" RecType.checkout 0 = true := by rfl
  have hci := h3 hco
  exact absurd hci (by decide)
